import Mathlib

/-!
Verification development for the SwapDotz celebration-video generator
(`generate_celebration_videos.py`, with the batch driver shared by
`generate_better_celebration_videos.py`).

Modelling conventions (shallow embedding):
* Python floats are idealized as rationals `ℚ`; `math.cos`/`math.sin` are
  abstracted as parameters `cf sf : ℚ → ℚ` — no claim depends on their values,
  only on how the program composes them.
* The CPython global Mersenne-Twister is modelled as a state `PRNG` holding the
  seeded draw stream and the current position; the seed→stream function of the
  generator is abstracted as a parameter `mt : ℕ → ℕ → ℚ` (`mt seed k` is the
  `k`-th `random.random()` draw after `random.seed(seed)`).
* The ffmpeg filter expressions are modelled structurally: `SourceSpec` stands
  for a `color=c=<color>:s=<w>x<h>:d=<d>:r=<r>` source, `PosExpr s e d` for the
  expression text `<s>+(<e>-<s>)*t/<d>`, and `FadeExpr d` for `1-t/<d>`.
* The encoder subprocess is an oracle `enc : EncoderCmd → EncResult`.
-/

namespace SwapDotz

/-- The double value of Python `math.pi`, idealized as a rational. -/
def math_pi : ℚ := 3.141592653589793

/-- `duration = 1.5` (seconds) from `create_celebration_video`. -/
def duration : ℚ := 1.5

/-- `fps = 30`. -/
def fps : ℕ := 30

/-- `width = 720`. -/
def width : ℤ := 720

/-- `height = 1280`. -/
def height : ℤ := 1280

/-- Python `int(x)` on a float: truncation toward zero. -/
def pyInt (x : ℚ) : ℤ := if 0 ≤ x then ⌊x⌋ else ⌈x⌉

/-- Python floor division `a // b`. -/
def pyFloorDiv (a b : ℤ) : ℤ := Int.fdiv a b

/-- `center_x = width // 2` (source line 51). -/
def center_x : ℤ := pyFloorDiv width 2

/-- `center_y = height // 3` (source line 52). -/
def center_y : ℤ := pyFloorDiv height 3

/-- The CPython global random state: the stream of `random.random()` draws
fixed by the last seeding, and the number of draws already consumed. -/
structure PRNG where
  stream : ℕ → ℚ
  pos : ℕ

/-- `random.random()`: consume one draw from the stream. -/
def pyRandom (g : PRNG) : ℚ × PRNG :=
  (g.stream g.pos, ⟨g.stream, g.pos + 1⟩)

/-- `random.uniform(a, b)`: CPython computes `a + (b - a) * random()`,
consuming exactly one `random()` draw. -/
def pyUniform (a b : ℚ) (g : PRNG) : ℚ × PRNG :=
  let (u, g1) := pyRandom g
  (a + (b - a) * u, g1)

/-- `random.seed(s)` (with `mt` the seed→stream function of the generator):
the previous global state is discarded entirely. -/
def pySeed (mt : ℕ → ℕ → ℚ) (s : ℕ) (_g : PRNG) : PRNG := ⟨mt s, 0⟩

/-- Secondary effects appearing in the `effects` lists of the source. -/
inductive Effect
  | burst_rays
  | shockwave
deriving DecidableEq, Repr

/-- The rarity-specific settings block (source lines 21–35). -/
structure Profile where
  particle_count : ℕ
  particle_colors : List String
  effects : List Effect
deriving DecidableEq, Repr

/-- The `if rarity == 'common' / elif 'uncommon' / else # rare` settings
chain of `create_celebration_video` (source lines 21–35).  Note the final
`else` branch: every string other than `"common"`/`"uncommon"` gets the
rare settings — there is no validation of the rarity argument. -/
def resolveProfile (rarity : String) : Profile :=
  if rarity = "common" then ⟨30, ["#32CD32", "#90EE90"], []⟩
  else if rarity = "uncommon" then ⟨60, ["#4A90E2", "#00CED1"], [.burst_rays]⟩
  else ⟨100, ["#FF6B35", "#FFD700"], [.burst_rays, .shockwave]⟩

/-- One simulated confetti particle (the per-iteration values of the loop at
source lines 54–90). -/
structure Particle where
  spawnIndex : ℕ
  angle : ℚ
  velocity : ℚ
  end_x : ℚ
  end_y : ℚ
  size : ℚ
  particle_size : ℤ
  color : String
deriving DecidableEq, Repr

/-- Default used with `List.getD` on particle lists. -/
def noParticle : Particle := ⟨0, 0, 0, 0, 0, 0, 0, ""⟩

/-- The body of the particle loop (source lines 54–75): draw `angle`,
`velocity`, compute the end position, draw the size, pick the color by
index.  Consumes exactly the three `random.uniform` draws, in this order. -/
def genParticle (cf sf : ℚ → ℚ) (particle_colors : List String) (i : ℕ)
    (g : PRNG) : Particle × PRNG :=
  let (angle, g1) := pyUniform 0 (2 * math_pi) g
  let (velocity, g2) := pyUniform 0 1 g1
  let max_radius := 432 * velocity
  let end_x := (center_x : ℚ) + cf angle * max_radius
  let end_y := (center_y : ℚ) + sf angle * max_radius
  let (u3, g3) := pyUniform 0 3 g2
  let size := 2 + u3
  let color := particle_colors.getD (i % particle_colors.length) ""
  (⟨i, angle, velocity, end_x, end_y, size, pyInt size, color⟩, g3)

/-- Named intermediate pads of the ffmpeg filter graph: `[bg]`, `[p<i>]`,
`[tmp<i>]`, `[ray<i>]`, `[ray_tmp<i>]`. -/
inductive Label
  | bg
  | p (i : ℕ)
  | tmp (i : ℕ)
  | ray (i : ℕ)
  | ray_tmp (i : ℕ)
deriving DecidableEq, Repr

/-- A `color=c=<color>:s=<w>x<h>:d=<d>:r=<r>` lavfi source. -/
structure SourceSpec where
  color : String
  w : ℤ
  h : ℤ
  d : ℚ
  r : ℕ
deriving DecidableEq, Repr

/-- The position expression template `<start>+(<stop>-<start>)*t/<dur>`
(source lines 78–79 and 109–110): linear interpolation from `start` to
`stop` over `dur` seconds. -/
structure PosExpr where
  start : ℚ
  stop : ℚ
  dur : ℚ
deriving DecidableEq, Repr

/-- The denotation of a `PosExpr` at time `t`. -/
def posAt (e : PosExpr) (t : ℚ) : ℚ :=
  e.start + (e.stop - e.start) * (t / e.dur)

/-- The fade expression template `1-t/<dur>` (source line 82). -/
structure FadeExpr where
  dur : ℚ
deriving DecidableEq, Repr

/-- One `overlay=...` filter: `[base][top]overlay=x=..:y=..(:alpha=..):
eval=frame:format=auto[out]`.  `alpha` is `Option` because
`create_celebration_video` passes no alpha parameter at all (line 90),
while the dramatic variant does (its line 96). -/
structure OverlayOp where
  base : Label
  top : Label
  x : PosExpr
  y : PosExpr
  alpha : Option FadeExpr
  eval_frame : Bool
  format : String
  out : Label
deriving DecidableEq, Repr

/-- Default used with `List.getD` on overlay lists. -/
def noOverlay : OverlayOp := ⟨.bg, .bg, ⟨0, 0, 1⟩, ⟨0, 0, 1⟩, none, true, "", .bg⟩

/-- One entry of the `filters` list. -/
inductive FilterNode
  | src (out : Label) (spec : SourceSpec)
  | ov (op : OverlayOp)
deriving DecidableEq, Repr

/-- The particle's color source `color=c=<color>:s=<sz>x<sz>:...[p<i>]`
(source line 75); the side of the square is `int(size)` from line 74. -/
def srcNodeOfParticle (part : Particle) : FilterNode :=
  .src (.p part.spawnIndex)
    ⟨part.color, part.particle_size, part.particle_size, duration, fps⟩

/-- The particle's overlay parameters (source lines 78–90): input `[bg]` for
particle 0 and `[tmp<i-1>]` otherwise, the linear position expression
templates of lines 78–79, **no** alpha parameter (the computed `alpha_expr`
of line 82 is never used), `eval=frame:format=auto`, output `[tmp<i>]`. -/
def ovParticleOp (part : Particle) : OverlayOp :=
  ⟨(if part.spawnIndex = 0 then .bg else .tmp (part.spawnIndex - 1)),
   .p part.spawnIndex,
   ⟨(center_x : ℚ), part.end_x, duration⟩,
   ⟨(center_y : ℚ), part.end_y, duration⟩,
   none, true, "auto", .tmp part.spawnIndex⟩

/-- The particle's overlay filter entry (source line 90). -/
def ovNodeOfParticle (part : Particle) : FilterNode :=
  .ov (ovParticleOp part)

/-- The particle loop (source lines 54–90): for `k` iterations starting at
index `i`, generate the particle and append its two filter entries. -/
def particleLoop (cf sf : ℚ → ℚ) (particle_colors : List String) :
    ℕ → ℕ → PRNG → List Particle × List FilterNode × PRNG
  | _, 0, g => ([], [], g)
  | i, k + 1, g =>
    let pg := genParticle cf sf particle_colors i g
    let rest := particleLoop cf sf particle_colors (i + 1) k pg.2
    (pg.1 :: rest.1,
     srcNodeOfParticle pg.1 :: ovNodeOfParticle pg.1 :: rest.2.1,
     rest.2.2)

/-- One burst ray (source lines 98–104): evenly spaced angle, fixed maximum
length `720 * 0.15`, no random draws. -/
structure BurstRay where
  index : ℕ
  angle : ℚ
  end_x : ℚ
  end_y : ℚ
deriving DecidableEq, Repr

/-- Ray generation (source lines 99–104). -/
def genRay (cf sf : ℚ → ℚ) (ray_count : ℕ) (r : ℕ) : BurstRay :=
  let angle := (2 * math_pi / (ray_count : ℚ)) * (r : ℚ)
  let max_length : ℚ := 720 * 0.15
  ⟨r, angle, (center_x : ℚ) + cf angle * max_length,
   (center_y : ℚ) + sf angle * max_length⟩

/-- The ray's source `color=c=#FFD700:s=2x20:...[ray<r>]` (source line 107). -/
def srcNodeOfRay (ray : BurstRay) : FilterNode :=
  .src (.ray ray.index) ⟨"#FFD700", 2, 20, duration, fps⟩

/-- The ray's overlay parameters (source lines 109–112): input is the
running `final_layer`, the same linear position templates, again no alpha
parameter, output `[ray_tmp<r>]`. -/
def ovRayOp (prev : Label) (ray : BurstRay) : OverlayOp :=
  ⟨prev, .ray ray.index,
   ⟨(center_x : ℚ), ray.end_x, duration⟩,
   ⟨(center_y : ℚ), ray.end_y, duration⟩,
   none, true, "auto", .ray_tmp ray.index⟩

/-- The ray's overlay filter entry (source line 112). -/
def ovNodeOfRay (prev : Label) (ray : BurstRay) : FilterNode :=
  .ov (ovRayOp prev ray)

/-- The ray loop (source lines 98–113): `prev` is the running `final_layer`,
updated to `[ray_tmp<r>]` after each ray; returns the nodes and the final
layer name. -/
def rayLoop (cf sf : ℚ → ℚ) (ray_count : ℕ) :
    Label → ℕ → ℕ → List FilterNode × Label
  | prev, _, 0 => ([], prev)
  | prev, r, k + 1 =>
    let ray := genRay cf sf ray_count r
    let rest := rayLoop cf sf ray_count (.ray_tmp r) (r + 1) k
    (srcNodeOfRay ray :: ovNodeOfRay prev ray :: rest.1, rest.2)

/-- The background source `color=c=black@0.0:s=720x1280:d=1.5:r=30[bg]`
(source line 46). -/
def bgNode : FilterNode := .src .bg ⟨"black@0.0", width, height, duration, fps⟩

/-- The assembled ffmpeg invocation (source lines 118–129). -/
structure EncoderCmd where
  input : SourceSpec
  filter_complex : List FilterNode
  mapLabel : Label
  vcodec : String
  pix_fmt : String
  crf : ℕ
  preset : String
  movflags : String
  output : String
deriving DecidableEq, Repr

/-- Everything `create_celebration_video` computes before spawning the
encoder subprocess: the resolved settings, the simulated particles and rays,
the filter graph, the final layer name, the command, and the global RNG
state left behind. -/
structure Plan where
  profile : Profile
  particles : List Particle
  rays : List BurstRay
  filters : List FilterNode
  final_layer : Label
  cmd : EncoderCmd
  final_rng : PRNG

/-- The pure part of `create_celebration_video` (source lines 12–129): resolve
the settings, `random.seed(42)`, run the particle loop, derive the final
layer, run the ray loop when `'burst_rays' in effects` (with
`ray_count = 48 if rarity == 'rare' else 32`), and assemble the command. -/
def create_celebration_video_plan (cf sf : ℚ → ℚ) (mt : ℕ → ℕ → ℚ)
    (rarity output_path : String) (g0 : PRNG) : Plan :=
  let profile := resolveProfile rarity
  let g1 := pySeed mt 42 g0
  let res := particleLoop cf sf profile.particle_colors 0 profile.particle_count g1
  let final0 : Label :=
    if 0 < profile.particle_count then .tmp (profile.particle_count - 1) else .bg
  let ray_count : ℕ :=
    if Effect.burst_rays ∈ profile.effects then
      (if rarity = "rare" then 48 else 32) else 0
  let rays := (List.range ray_count).map (genRay cf sf ray_count)
  let rres :=
    if Effect.burst_rays ∈ profile.effects then
      rayLoop cf sf ray_count final0 0 ray_count
    else ([], final0)
  let filters := bgNode :: (res.2.1 ++ rres.1)
  let cmd : EncoderCmd :=
    ⟨⟨"black@0.0", width, height, duration, fps⟩, filters, rres.2,
     "libx264", "yuv420p", 18, "fast", "+faststart", output_path⟩
  ⟨profile, res.1, rays, filters, rres.2, cmd, res.2.2⟩

/-- Outcomes of the `subprocess.run` call on the encoder (source lines
134–149): success, non-zero exit, `TimeoutExpired`, `FileNotFoundError`. -/
inductive EncResult
  | ok
  | fail (stderr : String)
  | timeout
  | notFound
deriving DecidableEq, Repr

/-- What one call of `create_celebration_video` did: which command (if any)
was handed to `subprocess.run`, and the function's boolean result. -/
structure RunResult where
  spawned : Option EncoderCmd
  success : Bool
deriving DecidableEq, Repr

/-- `create_celebration_video` end to end: build the plan, spawn the encoder
on the command, return `True` exactly on exit code 0 (source lines 134–149;
every failure kind returns `False`).  The command is spawned
unconditionally — there is no validation short-circuit. -/
def create_celebration_video (cf sf : ℚ → ℚ) (mt : ℕ → ℕ → ℚ)
    (rarity output_path : String) (enc : EncoderCmd → EncResult)
    (g0 : PRNG) : RunResult :=
  let plan := create_celebration_video_plan cf sf mt rarity output_path g0
  match enc plan.cmd with
  | .ok => ⟨some plan.cmd, true⟩
  | .fail _ => ⟨some plan.cmd, false⟩
  | .timeout => ⟨some plan.cmd, false⟩
  | .notFound => ⟨some plan.cmd, false⟩

/-- `rarities = ['common', 'uncommon', 'rare']` (source line 157). -/
def rarities : List String := ["common", "uncommon", "rare"]

/-- The loop of `main` (source lines 159–169): run the tiers in order; on the
first `success == False`, print and `return False` — later tiers are not
reached.  Returns the processed `(rarity, success)` pairs and `main`'s
boolean result. -/
def runJobs (outcome : String → Bool) :
    List String → List (String × Bool) × Bool
  | [] => ([], true)
  | r :: rest =>
    let success := outcome r
    if success then
      let res := runJobs outcome rest
      ((r, success) :: res.1, res.2)
    else ([(r, success)], false)

/-- The success bit `main` observes for one tier. -/
def tierOK (cf sf : ℚ → ℚ) (mt : ℕ → ℕ → ℚ) (output_dir : String)
    (enc : EncoderCmd → EncResult) (g0 : PRNG) (rarity : String) : Bool :=
  (create_celebration_video cf sf mt rarity
    (output_dir ++ "/" ++ rarity ++ "_celebration.mp4") enc g0).success

/-- `main` (source lines 151–169). -/
def main_fn (cf sf : ℚ → ℚ) (mt : ℕ → ℕ → ℚ) (output_dir : String)
    (enc : EncoderCmd → EncResult) (g0 : PRNG) :
    List (String × Bool) × Bool :=
  runJobs (tierOK cf sf mt output_dir enc g0) rarities

/-- The `if __name__ == "__main__": main()` entry point (source lines
171–172): `main()`'s boolean result is discarded and the interpreter exits
normally, so the process exit code is 0 on every path. -/
def script_exit_code (cf sf : ℚ → ℚ) (mt : ℕ → ℕ → ℚ) (output_dir : String)
    (enc : EncoderCmd → EncResult) (g0 : PRNG) : ℕ :=
  let _ := main_fn cf sf mt output_dir enc g0
  0

/-! ### Derived views of the plan, and graph well-formedness checkers -/

/-- The `i`-th simulated particle of a run. -/
def planParticle (cf sf : ℚ → ℚ) (mt : ℕ → ℕ → ℚ) (rarity out : String)
    (g : PRNG) (i : ℕ) : Particle :=
  (create_celebration_video_plan cf sf mt rarity out g).particles.getD i noParticle

/-- Extract the overlay payload of a filter entry, if any. -/
def ovOf : FilterNode → Option OverlayOp
  | .ov op => some op
  | .src _ _ => none

/-- All overlay operations of a plan's filter graph, in graph order. -/
def planOverlays (pl : Plan) : List OverlayOp :=
  pl.filters.filterMap ovOf

/-- The wiring shape of a filter entry: its output pad and, for overlays,
its two input pads — the data the graph-structure claims are about. -/
inductive Shape
  | src (out : Label)
  | ov (base top out : Label)
deriving DecidableEq, Repr

/-- Forget everything but the wiring of a filter entry. -/
def shapeOf : FilterNode → Shape
  | .src out _ => .src out
  | .ov op => .ov op.base op.top op.out

/-- The output pad a shape declares. -/
def Shape.outPad : Shape → Label
  | .src o => o
  | .ov _ _ o => o

/-- The input pads a shape consumes. -/
def Shape.inputs : Shape → List Label
  | .src _ => []
  | .ov b t _ => [b, t]

/-- How many times pad `l` is consumed as an input in the graph. -/
def refCount (l : Label) (shapes : List Shape) : ℕ :=
  (shapes.flatMap Shape.inputs).count l

/-- One-pass check that a shape list is a single linear overlay chain:
starting from the accumulated pad `cur`, the list must alternate between a
source declaring a fresh pad and an overlay whose base is `cur` and whose
top is that source pad, and the last overlay's output must be `final` (for
an empty list, `cur` itself must be `final`). -/
def chainFrom (cur : Label) : List Shape → Label → Bool
  | [], final => cur == final
  | .src top :: .ov b t outp :: rest, final =>
    b == cur && t == top && chainFrom outp rest final
  | _, _ => false

/-- An injective numbering of the pads appearing in a graph with `n`
particles, ordered the way the generator declares them; used to check pad
freshness with a single linear scan. -/
def padKey (n : ℕ) : Label → ℕ
  | .bg => 0
  | .p i => 4 * i + 1
  | .tmp i => 4 * i + 2
  | .ray r => 4 * (n + r) + 3
  | .ray_tmp r => 4 * (n + r) + 4

/-- Linear-time check that the pad keys are strictly increasing along the
declaration order — this implies that no pad is declared twice. -/
def padsSorted (n : ℕ) : List Label → Bool
  | [] => true
  | [_] => true
  | a :: b :: rest =>
    decide (padKey n a < padKey n b) && padsSorted n (b :: rest)

/-- Modelled from the claim's description of the graph order: the background
first, then particle layers `0..n-1`, then ray layers `0..rc-1`, each
overlaid onto the output of the previous layer. -/
def expectedShapes (n rc : ℕ) : List Shape :=
  .src .bg ::
    (((List.range n).flatMap fun i =>
      [.src (.p i), .ov (if i = 0 then .bg else .tmp (i - 1)) (.p i) (.tmp i)]) ++
     ((List.range rc).flatMap fun r =>
      [.src (.ray r),
       .ov (if r = 0 then (if n = 0 then Label.bg else .tmp (n - 1))
            else .ray_tmp (r - 1)) (.ray r) (.ray_tmp r)]))

/-- The wiring of the particle loop's entries, by index — a function of the
indices alone. -/
def pShapes : ℕ → ℕ → List Shape
  | _, 0 => []
  | i, k + 1 =>
    .src (.p i) ::
    .ov (if i = 0 then .bg else .tmp (i - 1)) (.p i) (.tmp i) ::
    pShapes (i + 1) k

/-- The wiring of the ray loop's entries — a function of the running input
pad and the indices alone. -/
def rShapes : Label → ℕ → ℕ → List Shape
  | _, _, 0 => []
  | prev, r, k + 1 =>
    .src (.ray r) :: .ov prev (.ray r) (.ray_tmp r) :: rShapes (.ray_tmp r) (r + 1) k

/-- Zero stand-in for the abstracted cosine/sine at concrete inputs. -/
def zeroFn : ℚ → ℚ := fun _ => 0

/-- Zero stand-in for the abstracted seed→stream function at concrete inputs. -/
def zeroMT : ℕ → ℕ → ℚ := fun _ _ => 0

/-- A concrete initial global RNG state. -/
def g0 : PRNG := ⟨fun _ => 0, 0⟩

end SwapDotz

namespace SwapDotz

/-! ### Helper lemmas about the particle loop and the driver -/

theorem genParticle_rng (cf sf : ℚ → ℚ) (pal : List String) (i : ℕ) (g : PRNG) :
    (genParticle cf sf pal i g).2 = ⟨g.stream, g.pos + 3⟩ := rfl

theorem particleLoop_length (cf sf : ℚ → ℚ) (pal : List String) :
    ∀ (k i : ℕ) (g : PRNG), ((particleLoop cf sf pal i k g).1).length = k := by
  intro k
  induction k with
  | zero => intro i g; rfl
  | succ k ih => intro i g; simp [particleLoop, ih]

theorem particleLoop_rng (cf sf : ℚ → ℚ) (pal : List String) :
    ∀ (k i : ℕ) (g : PRNG),
      (particleLoop cf sf pal i k g).2.2 = ⟨g.stream, g.pos + 3 * k⟩ := by
  intro k
  induction k with
  | zero => intro i g; simp [particleLoop]
  | succ k ih =>
    intro i g
    rw [particleLoop, ih, genParticle_rng]
    simp only [PRNG.mk.injEq, true_and]
    omega

theorem particleLoop_getD (cf sf : ℚ → ℚ) (pal : List String) :
    ∀ (k i : ℕ) (g : PRNG) (j : ℕ), j < k →
      ((particleLoop cf sf pal i k g).1).getD j noParticle =
        (genParticle cf sf pal (i + j) ⟨g.stream, g.pos + 3 * j⟩).1 := by
  intro k
  induction k with
  | zero => intro i g j h; omega
  | succ k ih =>
    intro i g j h
    cases j with
    | zero => simp [particleLoop]
    | succ j =>
      have hj : j < k := by omega
      have h1 : i + 1 + j = i + (j + 1) := by omega
      have h2 : g.pos + 3 + 3 * j = g.pos + 3 * (j + 1) := by omega
      simp only [particleLoop, List.getD_cons_succ]
      rw [ih (i + 1) (genParticle cf sf pal i g).2 j hj, genParticle_rng]
      simp only [h1, h2]

theorem particleLoop_nodes (cf sf : ℚ → ℚ) (pal : List String) :
    ∀ (k i : ℕ) (g : PRNG),
      (particleLoop cf sf pal i k g).2.1 =
        ((particleLoop cf sf pal i k g).1).flatMap
          (fun q => [srcNodeOfParticle q, ovNodeOfParticle q]) := by
  intro k
  induction k with
  | zero => intro i g; rfl
  | succ k ih => intro i g; simp [particleLoop, ih]

theorem runJobs_ret_iff (outcome : String → Bool) :
    ∀ l : List String,
      (runJobs outcome l).2 = true ↔ ∀ r ∈ l, outcome r = true := by
  intro l
  induction l with
  | nil => simp [runJobs]
  | cons r rest ih =>
    by_cases h : outcome r = true
    · simpa [runJobs, h] using ih
    · simp only [Bool.not_eq_true] at h
      simp [runJobs, h]

/-! ### Claims -/

/-- Claim C1 (confirmed): for every rarity tier, two independent runs of the
particle simulation in `create_celebration_video` — each reseeding the
pseudo-random generator with the fixed constant 42 before generating, and
each starting from an arbitrary ambient global RNG state — produce identical
ordered particle sequences (same angles, velocities, end positions, sizes,
colors, in the same order) and identical burst rays. -/
theorem C1_determinism (cf sf : ℚ → ℚ) (mt : ℕ → ℕ → ℚ)
    (rarity out1 out2 : String) (g g' : PRNG) :
    (create_celebration_video_plan cf sf mt rarity out1 g).particles =
      (create_celebration_video_plan cf sf mt rarity out2 g').particles ∧
    (create_celebration_video_plan cf sf mt rarity out1 g).rays =
      (create_celebration_video_plan cf sf mt rarity out2 g').rays :=
  ⟨rfl, rfl⟩

/-- Claim C8 (confirmed): the simulation produces exactly
`particle_count` particles and exactly the tier's ray count of burst rays:
30/0 for common, 60/32 for uncommon, 100/48 for rare; for every rarity the
particle count matches the resolved profile, and a profile without the
burst-rays effect yields no rays. -/
theorem C8_counts (cf sf : ℚ → ℚ) (mt : ℕ → ℕ → ℚ) (out : String) (g : PRNG) :
    ((create_celebration_video_plan cf sf mt "common" out g).particles.length = 30 ∧
      (create_celebration_video_plan cf sf mt "common" out g).rays.length = 0) ∧
    ((create_celebration_video_plan cf sf mt "uncommon" out g).particles.length = 60 ∧
      (create_celebration_video_plan cf sf mt "uncommon" out g).rays.length = 32) ∧
    ((create_celebration_video_plan cf sf mt "rare" out g).particles.length = 100 ∧
      (create_celebration_video_plan cf sf mt "rare" out g).rays.length = 48) ∧
    (∀ rarity, (create_celebration_video_plan cf sf mt rarity out g).particles.length =
      (resolveProfile rarity).particle_count) ∧
    (∀ rarity, Effect.burst_rays ∉ (resolveProfile rarity).effects →
      (create_celebration_video_plan cf sf mt rarity out g).rays.length = 0) := by
  refine ⟨⟨?_, ?_⟩, ⟨?_, ?_⟩, ⟨?_, ?_⟩, ?_, ?_⟩
  · simp [create_celebration_video_plan, resolveProfile, particleLoop_length]
  · simp [create_celebration_video_plan, resolveProfile]
  · simp [create_celebration_video_plan, resolveProfile, particleLoop_length]
  · simp [create_celebration_video_plan, resolveProfile]
  · simp [create_celebration_video_plan, resolveProfile, particleLoop_length]
  · simp [create_celebration_video_plan, resolveProfile]
  · intro rarity; simp [create_celebration_video_plan, particleLoop_length]
  · intro rarity h; simp [create_celebration_video_plan, h]

/-- Claim C3 counterexample: invoking the pipeline with the unsupported
rarity `"epic"` does not fail before the encoder subprocess — the command is
assembled and handed to the encoder (here an always-succeeding oracle). -/
theorem C3_counterexample :
    (create_celebration_video zeroFn zeroFn zeroMT "epic" "epic.mp4"
      (fun _ => .ok) g0).spawned.isSome = true := rfl

/-- Claim C3 (amended): there is no rarity validation. An out-of-set value
such as `"epic"` falls into the `else` branch and receives the rare settings
(100 particles, orange/gold palette, burst rays + shockwave) — except that
it gets 32 burst rays, because `48 if rarity == 'rare' else 32` tests the
exact string — and the pipeline proceeds to simulate and to spawn the
encoder subprocess on the assembled command, for every encoder outcome. -/
theorem C3_amended (cf sf : ℚ → ℚ) (mt : ℕ → ℕ → ℚ) (out : String) (g : PRNG)
    (enc : EncoderCmd → EncResult) :
    (create_celebration_video_plan cf sf mt "epic" out g).profile =
      resolveProfile "rare" ∧
    (create_celebration_video_plan cf sf mt "epic" out g).rays.length = 32 ∧
    (create_celebration_video cf sf mt "epic" out enc g).spawned =
      some (create_celebration_video_plan cf sf mt "epic" out g).cmd := by
  refine ⟨rfl, ?_, ?_⟩
  · simp [create_celebration_video_plan, resolveProfile]
  · cases h : enc (create_celebration_video_plan cf sf mt "epic" out g).cmd <;>
      simp [create_celebration_video, h]

/-- Claim C4 counterexample: with an encoder that always times out, the
common tier fails and the driver stops immediately — the uncommon tier is
never processed, contrary to the claim that sibling jobs continue. -/
theorem C4_counterexample :
    (main_fn zeroFn zeroFn zeroMT "out" (fun _ => .timeout) g0).1 =
      [("common", false)] ∧
    "uncommon" ∉
      (main_fn zeroFn zeroFn zeroMT "out" (fun _ => .timeout) g0).1.map Prod.fst := by
  exact ⟨rfl, by decide⟩

/-- Claim C4 (amended): a failing tier aborts the batch: `main` returns
`False` right after the first tier whose render failed, so the remaining
tiers are not processed; all three tiers are processed only when every tier
succeeds. -/
theorem C4_amended (cf sf : ℚ → ℚ) (mt : ℕ → ℕ → ℚ) (dir : String)
    (enc : EncoderCmd → EncResult) (g : PRNG) :
    main_fn cf sf mt dir enc g =
      (if tierOK cf sf mt dir enc g "common" = false then
        ([("common", false)], false)
       else if tierOK cf sf mt dir enc g "uncommon" = false then
        ([("common", true), ("uncommon", false)], false)
       else if tierOK cf sf mt dir enc g "rare" = false then
        ([("common", true), ("uncommon", true), ("rare", false)], false)
       else ([("common", true), ("uncommon", true), ("rare", true)], true)) := by
  cases hc : tierOK cf sf mt dir enc g "common" <;>
    cases hu : tierOK cf sf mt dir enc g "uncommon" <;>
      cases hr : tierOK cf sf mt dir enc g "rare" <;>
        simp [main_fn, rarities, runJobs, hc, hu, hr]

/-- Claim C5 counterexample: with an encoder that always times out every
tier fails, yet the process exit code is 0 — the claim that a failing tier
forces a non-zero exit code is false. -/
theorem C5_counterexample :
    script_exit_code zeroFn zeroFn zeroMT "out" (fun _ => .timeout) g0 = 0 ∧
    (main_fn zeroFn zeroFn zeroMT "out" (fun _ => .timeout) g0).2 = false :=
  ⟨rfl, rfl⟩

/-- Claim C5 (amended): the script's process exit code is 0 on every path,
because the entry point discards `main()`'s boolean result; per-tier status
is reported only through that boolean, which is `True` exactly when every
tier succeeded. -/
theorem C5_amended (cf sf : ℚ → ℚ) (mt : ℕ → ℕ → ℚ) (dir : String)
    (enc : EncoderCmd → EncResult) (g : PRNG) :
    script_exit_code cf sf mt dir enc g = 0 ∧
    ((main_fn cf sf mt dir enc g).2 = true ↔
      ∀ r ∈ rarities, tierOK cf sf mt dir enc g r = true) :=
  ⟨rfl, runJobs_ret_iff _ _⟩

end SwapDotz

namespace SwapDotz

theorem planParticle_eq (cf sf : ℚ → ℚ) (mt : ℕ → ℕ → ℚ) (rarity out : String)
    (g : PRNG) (i : ℕ) (hi : i < (resolveProfile rarity).particle_count) :
    planParticle cf sf mt rarity out g i =
      (genParticle cf sf (resolveProfile rarity).particle_colors i ⟨mt 42, 3 * i⟩).1 := by
  have h := particleLoop_getD cf sf (resolveProfile rarity).particle_colors
    (resolveProfile rarity).particle_count 0 ⟨mt 42, 0⟩ i hi
  simpa [planParticle, create_celebration_video_plan, pySeed] using h

theorem particleLoop_shapes (cf sf : ℚ → ℚ) (pal : List String) :
    ∀ (k i : ℕ) (g : PRNG),
      ((particleLoop cf sf pal i k g).2.1).map shapeOf = pShapes i k := by
  intro k
  induction k with
  | zero => intro i g; rfl
  | succ k ih =>
    intro i g
    simp [particleLoop, pShapes, ih, shapeOf, srcNodeOfParticle, ovNodeOfParticle,
      ovParticleOp, genParticle, pyUniform, pyRandom]

theorem rayLoop_shapes (cf sf : ℚ → ℚ) (rc : ℕ) :
    ∀ (k : ℕ) (prev : Label) (r : ℕ),
      ((rayLoop cf sf rc prev r k).1).map shapeOf = rShapes prev r k := by
  intro k
  induction k with
  | zero => intro prev r; rfl
  | succ k ih =>
    intro prev r
    simp [rayLoop, rShapes, ih, shapeOf, srcNodeOfRay, ovNodeOfRay, ovRayOp, genRay]

theorem rayLoop_ov_mem (cf sf : ℚ → ℚ) (rc : ℕ) :
    ∀ (k : ℕ) (prev : Label) (r : ℕ) (op : OverlayOp),
      FilterNode.ov op ∈ (rayLoop cf sf rc prev r k).1 →
      ∃ pr ray, op = ovRayOp pr ray := by
  intro k
  induction k with
  | zero => intro prev r op h; simp [rayLoop] at h
  | succ k ih =>
    intro prev r op h
    simp only [rayLoop, List.mem_cons] at h
    rcases h with h | h | h
    · exact absurd h (by simp [srcNodeOfRay])
    · exact ⟨prev, genRay cf sf rc r, by
        simpa [ovNodeOfRay] using h⟩
    · exact ih _ _ _ h

theorem mem_planOverlays {op : OverlayOp} {pl : Plan} :
    op ∈ planOverlays pl ↔ FilterNode.ov op ∈ pl.filters := by
  constructor
  · intro h
    rcases List.mem_filterMap.mp h with ⟨a, ha, hf⟩
    cases a with
    | src o s => simp [ovOf] at hf
    | ov op' =>
      simp only [ovOf, Option.some.injEq] at hf
      exact hf ▸ ha
  · intro h
    exact List.mem_filterMap.mpr ⟨.ov op, h, rfl⟩

end SwapDotz

namespace SwapDotz

/-- Claim C2 counterexample: the claim's center point `(width/2, height/3)`
with real division fails on the code.  In the concrete run below particle 0
draws velocity 0, so the claimed `end_y = height/3 + sin(angle)*radius`
equals `1280/3` whatever the sine factor is, while the code computes
`center_y = height // 3 = 426`; the deviation is `2/3`, far above the
claimed tolerance `1e-9`. -/
theorem C2_counterexample :
    |(planParticle zeroFn zeroFn zeroMT "common" "o.mp4" g0 0).end_y -
        ((1280 : ℚ) / 3 +
          zeroFn (planParticle zeroFn zeroFn zeroMT "common" "o.mp4" g0 0).angle *
            (432 * (planParticle zeroFn zeroFn zeroMT "common" "o.mp4" g0 0).velocity))| >
      1e-9 := by
  rw [planParticle_eq zeroFn zeroFn zeroMT "common" "o.mp4" g0 0 (by decide)]
  simp [genParticle, pyUniform, pyRandom, zeroFn, zeroMT]
  rw [show center_y = (426 : ℤ) from by decide]
  norm_num
  rw [abs_of_pos (by norm_num : (0 : ℚ) < 2 / 3)]
  norm_num

/-- Claim C2 (amended): for every particle index `i`, the simulated end
position satisfies `endPosition = centerPoint + radius*(cos angle, sin angle)`
exactly, with `radius = 432 * velocityFactor = 0.6 * 720 * velocityFactor`
(0.6 of the canvas's shorter side), where the center point is
`(width // 2, height // 3) = (360, 426)` — Python floor division, not the
real vertical third-point `height/3` —, and the particle's `angle` and
`velocityFactor` are functions of its own two draws (`3i` and `3i+1`) alone,
independent of the draws consumed by other particles. -/
theorem C2_amended (cf sf : ℚ → ℚ) (mt : ℕ → ℕ → ℚ) (rarity out : String)
    (g : PRNG) (i : ℕ) (hi : i < (resolveProfile rarity).particle_count) :
    (planParticle cf sf mt rarity out g i).end_x =
      (center_x : ℚ) + cf (planParticle cf sf mt rarity out g i).angle *
        (432 * (planParticle cf sf mt rarity out g i).velocity) ∧
    (planParticle cf sf mt rarity out g i).end_y =
      (center_y : ℚ) + sf (planParticle cf sf mt rarity out g i).angle *
        (432 * (planParticle cf sf mt rarity out g i).velocity) ∧
    (planParticle cf sf mt rarity out g i).angle = 2 * math_pi * mt 42 (3 * i) ∧
    (planParticle cf sf mt rarity out g i).velocity = mt 42 (3 * i + 1) ∧
    (center_x : ℚ) = 360 ∧ (center_y : ℚ) = 426 ∧
    center_x = pyFloorDiv width 2 ∧ center_y = pyFloorDiv height 3 ∧
    (432 : ℚ) = 0.6 * 720 := by
  rw [planParticle_eq cf sf mt rarity out g i hi]
  refine ⟨?_, ?_, ?_, ?_, ?_, ?_, rfl, rfl, by norm_num⟩
  · simp [genParticle, pyUniform, pyRandom]
  · simp [genParticle, pyUniform, pyRandom]
  · simp [genParticle, pyUniform, pyRandom]
  · simp [genParticle, pyUniform, pyRandom]
  · rw [show center_x = (360 : ℤ) from by decide]; norm_num
  · rw [show center_y = (426 : ℤ) from by decide]; norm_num

/-- Concrete instantiation of `C2_amended` at rarity `"common"`, index 0. -/
theorem C2_amended_witness :
    0 < (resolveProfile "common").particle_count ∧
    ((planParticle zeroFn zeroFn zeroMT "common" "o.mp4" g0 0).end_x =
      (center_x : ℚ) + zeroFn (planParticle zeroFn zeroFn zeroMT "common" "o.mp4" g0 0).angle *
        (432 * (planParticle zeroFn zeroFn zeroMT "common" "o.mp4" g0 0).velocity) ∧
    (planParticle zeroFn zeroFn zeroMT "common" "o.mp4" g0 0).end_y =
      (center_y : ℚ) + zeroFn (planParticle zeroFn zeroFn zeroMT "common" "o.mp4" g0 0).angle *
        (432 * (planParticle zeroFn zeroFn zeroMT "common" "o.mp4" g0 0).velocity) ∧
    (planParticle zeroFn zeroFn zeroMT "common" "o.mp4" g0 0).angle =
      2 * math_pi * zeroMT 42 (3 * 0) ∧
    (planParticle zeroFn zeroFn zeroMT "common" "o.mp4" g0 0).velocity =
      zeroMT 42 (3 * 0 + 1) ∧
    (center_x : ℚ) = 360 ∧ (center_y : ℚ) = 426 ∧
    center_x = pyFloorDiv width 2 ∧ center_y = pyFloorDiv height 3 ∧
    (432 : ℚ) = 0.6 * 720) :=
  ⟨by decide, C2_amended zeroFn zeroFn zeroMT "common" "o.mp4" g0 0 (by decide)⟩

end SwapDotz

namespace SwapDotz

/-- Claim C9 (confirmed): particle `i`'s color equals
`palette[i mod len(palette)]` — deterministic cycling through the profile's
ordered palette —, and choosing it consumes no pseudo-random draw: the loop
leaves the generator exactly `3 * particleCount` draws ahead (three draws
per particle: angle, velocity, size), and the color does not depend on the
drawn stream at all. -/
theorem C9_color_cycling (cf sf : ℚ → ℚ) (mt : ℕ → ℕ → ℚ) (rarity out : String)
    (g : PRNG) (i : ℕ) (hi : i < (resolveProfile rarity).particle_count) :
    (planParticle cf sf mt rarity out g i).color =
      (resolveProfile rarity).particle_colors.getD
        (i % (resolveProfile rarity).particle_colors.length) "" ∧
    (create_celebration_video_plan cf sf mt rarity out g).final_rng.pos =
      3 * (resolveProfile rarity).particle_count ∧
    (∀ (cf' sf' : ℚ → ℚ) (mt' : ℕ → ℕ → ℚ) (out' : String) (g' : PRNG),
      (planParticle cf' sf' mt' rarity out' g' i).color =
        (planParticle cf sf mt rarity out g i).color) := by
  refine ⟨?_, ?_, ?_⟩
  · rw [planParticle_eq cf sf mt rarity out g i hi]
    simp [genParticle, pyUniform, pyRandom]
  · have h : (create_celebration_video_plan cf sf mt rarity out g).final_rng =
        (particleLoop cf sf (resolveProfile rarity).particle_colors 0
          (resolveProfile rarity).particle_count ⟨mt 42, 0⟩).2.2 := rfl
    rw [h, particleLoop_rng]
    simp
  · intro cf' sf' mt' out' g'
    rw [planParticle_eq cf' sf' mt' rarity out' g' i hi,
        planParticle_eq cf sf mt rarity out g i hi]
    simp [genParticle, pyUniform, pyRandom]

/-- Concrete instantiation of `C9_color_cycling` at rarity `"uncommon"`,
index 5 (an odd index, exercising the cycling). -/
theorem C9_color_cycling_witness :
    5 < (resolveProfile "uncommon").particle_count ∧
    ((planParticle zeroFn zeroFn zeroMT "uncommon" "o.mp4" g0 5).color =
      (resolveProfile "uncommon").particle_colors.getD
        (5 % (resolveProfile "uncommon").particle_colors.length) "" ∧
    (create_celebration_video_plan zeroFn zeroFn zeroMT "uncommon" "o.mp4"
        g0).final_rng.pos = 3 * (resolveProfile "uncommon").particle_count ∧
    (∀ (cf' sf' : ℚ → ℚ) (mt' : ℕ → ℕ → ℚ) (out' : String) (g' : PRNG),
      (planParticle cf' sf' mt' "uncommon" out' g' 5).color =
        (planParticle zeroFn zeroFn zeroMT "uncommon" "o.mp4" g0 5).color)) :=
  ⟨by decide,
   C9_color_cycling zeroFn zeroFn zeroMT "uncommon" "o.mp4" g0 5 (by decide)⟩

/-- Claim C10 (confirmed): the simulated size is the real number
`2 + sizeOffset` with `sizeOffset = 3 * draw ∈ [0,3)`, so `size ∈ [2,5)`;
the compiled layer's square side is the integer truncation `int(size)`, so
it is exactly 2, 3 or 4; and the particle's color-source filter entry in the
compiled graph indeed carries that integer side (for both dimensions). -/
theorem C10_particle_size (cf sf : ℚ → ℚ) (mt : ℕ → ℕ → ℚ) (rarity out : String)
    (g : PRNG) (i : ℕ) (hi : i < (resolveProfile rarity).particle_count)
    (hs : ∀ k, 0 ≤ mt 42 k ∧ mt 42 k < 1) :
    (planParticle cf sf mt rarity out g i).size = 2 + 3 * mt 42 (3 * i + 2) ∧
    2 ≤ (planParticle cf sf mt rarity out g i).size ∧
    (planParticle cf sf mt rarity out g i).size < 5 ∧
    (planParticle cf sf mt rarity out g i).particle_size =
      pyInt (planParticle cf sf mt rarity out g i).size ∧
    ((planParticle cf sf mt rarity out g i).particle_size = 2 ∨
     (planParticle cf sf mt rarity out g i).particle_size = 3 ∨
     (planParticle cf sf mt rarity out g i).particle_size = 4) ∧
    srcNodeOfParticle (planParticle cf sf mt rarity out g i) =
      .src (.p i) ⟨(planParticle cf sf mt rarity out g i).color,
        (planParticle cf sf mt rarity out g i).particle_size,
        (planParticle cf sf mt rarity out g i).particle_size, duration, fps⟩ ∧
    srcNodeOfParticle (planParticle cf sf mt rarity out g i) ∈
      (create_celebration_video_plan cf sf mt rarity out g).filters := by
  have hpe := planParticle_eq cf sf mt rarity out g i hi
  have hidx : 3 * i + 1 + 1 = 3 * i + 2 := by omega
  have hsize : (planParticle cf sf mt rarity out g i).size =
      2 + 3 * mt 42 (3 * i + 2) := by
    rw [hpe]; simp [genParticle, pyUniform, pyRandom, hidx]
  have hlo : (0 : ℚ) ≤ mt 42 (3 * i + 2) := (hs _).1
  have hup : mt 42 (3 * i + 2) < 1 := (hs _).2
  have h2 : 2 ≤ (planParticle cf sf mt rarity out g i).size := by
    rw [hsize]; linarith
  have h5 : (planParticle cf sf mt rarity out g i).size < 5 := by
    rw [hsize]; linarith
  have hps : (planParticle cf sf mt rarity out g i).particle_size =
      pyInt (planParticle cf sf mt rarity out g i).size := by
    rw [hpe]; simp [genParticle, pyUniform, pyRandom]
  have hfloor : pyInt (planParticle cf sf mt rarity out g i).size =
      ⌊(planParticle cf sf mt rarity out g i).size⌋ := by
    unfold pyInt; rw [if_pos]; linarith
  have hfl2 : (2 : ℤ) ≤ ⌊(planParticle cf sf mt rarity out g i).size⌋ :=
    Int.le_floor.mpr (by exact_mod_cast h2)
  have hfl5 : ⌊(planParticle cf sf mt rarity out g i).size⌋ < 5 :=
    Int.floor_lt.mpr (by exact_mod_cast h5)
  refine ⟨hsize, h2, h5, hps, ?_, ?_, ?_⟩
  · rw [hps, hfloor]; omega
  · rw [hpe]; simp [srcNodeOfParticle, genParticle, pyUniform, pyRandom]
  · apply List.mem_cons_of_mem
    apply List.mem_append_left
    rw [particleLoop_nodes]
    apply List.mem_flatMap.mpr
    refine ⟨planParticle cf sf mt rarity out g i, ?_, by simp⟩
    have hlen : i < ((particleLoop cf sf (resolveProfile rarity).particle_colors 0
        (resolveProfile rarity).particle_count ⟨mt 42, 0⟩).1).length := by
      rw [particleLoop_length]; exact hi
    have hgd : planParticle cf sf mt rarity out g i =
        ((particleLoop cf sf (resolveProfile rarity).particle_colors 0
          (resolveProfile rarity).particle_count ⟨mt 42, 0⟩).1).getD i noParticle := rfl
    rw [hgd, List.getD_eq_getElem?_getD, List.getElem?_eq_getElem hlen,
        Option.getD_some]
    exact List.getElem_mem hlen

/-- Concrete instantiation of `C10_particle_size` at rarity `"common"`,
index 0, with the all-zero draw stream. -/
theorem C10_particle_size_witness :
    0 < (resolveProfile "common").particle_count ∧
    (∀ k, 0 ≤ zeroMT 42 k ∧ zeroMT 42 k < 1) ∧
    ((planParticle zeroFn zeroFn zeroMT "common" "o.mp4" g0 0).size =
      2 + 3 * zeroMT 42 (3 * 0 + 2) ∧
    2 ≤ (planParticle zeroFn zeroFn zeroMT "common" "o.mp4" g0 0).size ∧
    (planParticle zeroFn zeroFn zeroMT "common" "o.mp4" g0 0).size < 5 ∧
    (planParticle zeroFn zeroFn zeroMT "common" "o.mp4" g0 0).particle_size =
      pyInt (planParticle zeroFn zeroFn zeroMT "common" "o.mp4" g0 0).size ∧
    ((planParticle zeroFn zeroFn zeroMT "common" "o.mp4" g0 0).particle_size = 2 ∨
     (planParticle zeroFn zeroFn zeroMT "common" "o.mp4" g0 0).particle_size = 3 ∨
     (planParticle zeroFn zeroFn zeroMT "common" "o.mp4" g0 0).particle_size = 4) ∧
    srcNodeOfParticle (planParticle zeroFn zeroFn zeroMT "common" "o.mp4" g0 0) =
      .src (.p 0) ⟨(planParticle zeroFn zeroFn zeroMT "common" "o.mp4" g0 0).color,
        (planParticle zeroFn zeroFn zeroMT "common" "o.mp4" g0 0).particle_size,
        (planParticle zeroFn zeroFn zeroMT "common" "o.mp4" g0 0).particle_size,
        duration, fps⟩ ∧
    srcNodeOfParticle (planParticle zeroFn zeroFn zeroMT "common" "o.mp4" g0 0) ∈
      (create_celebration_video_plan zeroFn zeroFn zeroMT "common" "o.mp4"
        g0).filters) :=
  ⟨by decide, fun _ => ⟨le_refl 0, zero_lt_one⟩,
   C10_particle_size zeroFn zeroFn zeroMT "common" "o.mp4" g0 0 (by decide)
     (fun _ => ⟨le_refl 0, zero_lt_one⟩)⟩

end SwapDotz

namespace SwapDotz

theorem planOverlays_shape (cf sf : ℚ → ℚ) (mt : ℕ → ℕ → ℚ)
    (rarity out : String) (g : PRNG) :
    ∀ op ∈ planOverlays (create_celebration_video_plan cf sf mt rarity out g),
      (∃ q : Particle, op = ovParticleOp q) ∨
      (∃ (pr : Label) (ray : BurstRay), op = ovRayOp pr ray) := by
  intro op hop
  rw [mem_planOverlays] at hop
  by_cases hmem : Effect.burst_rays ∈ (resolveProfile rarity).effects
  all_goals
    simp only [create_celebration_video_plan] at hop
  · rw [if_pos hmem] at hop
    rcases List.mem_cons.mp hop with h | h
    · exact absurd h (by simp [bgNode])
    rcases List.mem_append.mp h with h | h
    · left
      rw [particleLoop_nodes] at h
      rcases List.mem_flatMap.mp h with ⟨q, _, hmem2⟩
      simp only [List.mem_cons, List.mem_singleton] at hmem2
      rcases hmem2 with h2 | h2 | h2
      · exact absurd h2 (by simp [srcNodeOfParticle])
      · exact ⟨q, by simpa [ovNodeOfParticle] using h2⟩
      · simp at h2
    · right
      exact rayLoop_ov_mem cf sf _ _ _ _ op h
  · rw [if_neg hmem] at hop
    rcases List.mem_cons.mp hop with h | h
    · exact absurd h (by simp [bgNode])
    rcases List.mem_append.mp h with h | h
    · left
      rw [particleLoop_nodes] at h
      rcases List.mem_flatMap.mp h with ⟨q, _, hmem2⟩
      simp only [List.mem_cons, List.mem_singleton] at hmem2
      rcases hmem2 with h2 | h2 | h2
      · exact absurd h2 (by simp [srcNodeOfParticle])
      · exact ⟨q, by simpa [ovNodeOfParticle] using h2⟩
      · simp at h2
    · simp at h

/-- Claim C6 counterexample: in `create_celebration_video`'s compiled graph
(here: rarity common) the overlay operations carry **no** opacity parameter at
all — the computed fade expression `1-t/duration` of source line 82 is never
attached — so the claim that every layer's overlay carries both a position
and an opacity expression is false. -/
theorem C6_counterexample :
    ((planOverlays (create_celebration_video_plan zeroFn zeroFn zeroMT
        "common" "o.mp4" g0)).all fun op => op.alpha.isSome) = false := by
  decide

/-- Claim C6 (amended): every particle and burst-ray overlay in
`create_celebration_video`'s compiled graph carries the linearly
interpolated position expressions `center + (end - center) * (t/duration)`
for both coordinates over the job's duration, but carries **no** opacity
expression: the fade expression `1-t/duration` is computed and then dropped
(only the dramatic variant attaches an `alpha` parameter). -/
theorem C6_amended (cf sf : ℚ → ℚ) (mt : ℕ → ℕ → ℚ) (rarity out : String)
    (g : PRNG) :
    ∀ op ∈ planOverlays (create_celebration_video_plan cf sf mt rarity out g),
      op.alpha = none ∧
      op.x.dur = duration ∧ op.y.dur = duration ∧
      op.x.start = (center_x : ℚ) ∧ op.y.start = (center_y : ℚ) ∧
      (∀ t : ℚ, posAt op.x t =
        op.x.start + (op.x.stop - op.x.start) * (t / duration)) ∧
      (∀ t : ℚ, posAt op.y t =
        op.y.start + (op.y.stop - op.y.start) * (t / duration)) := by
  intro op hop
  rcases planOverlays_shape cf sf mt rarity out g op hop with ⟨q, rfl⟩ | ⟨pr, ray, rfl⟩
  · simp [ovParticleOp, posAt]
  · simp [ovRayOp, posAt]

theorem ovParticleOp_zero_mem :
    ovParticleOp (planParticle zeroFn zeroFn zeroMT "common" "o.mp4" g0 0) ∈
      planOverlays (create_celebration_video_plan zeroFn zeroFn zeroMT
        "common" "o.mp4" g0) := by
  rw [mem_planOverlays]
  apply List.mem_cons_of_mem
  apply List.mem_append_left
  rw [particleLoop_nodes]
  apply List.mem_flatMap.mpr
  refine ⟨planParticle zeroFn zeroFn zeroMT "common" "o.mp4" g0 0, ?_,
    by simp [ovNodeOfParticle]⟩
  have hlen : 0 < ((particleLoop zeroFn zeroFn
      (resolveProfile "common").particle_colors 0
      (resolveProfile "common").particle_count ⟨zeroMT 42, 0⟩).1).length := by
    rw [particleLoop_length]; decide
  have hgd : planParticle zeroFn zeroFn zeroMT "common" "o.mp4" g0 0 =
      ((particleLoop zeroFn zeroFn (resolveProfile "common").particle_colors 0
        (resolveProfile "common").particle_count ⟨zeroMT 42, 0⟩).1).getD 0
        noParticle := rfl
  rw [hgd, List.getD_eq_getElem?_getD, List.getElem?_eq_getElem hlen,
      Option.getD_some]
  exact List.getElem_mem hlen

/-- Concrete instantiation of `C6_amended` at the first particle overlay of
the common-tier graph. -/
theorem C6_amended_witness :
    (ovParticleOp (planParticle zeroFn zeroFn zeroMT "common" "o.mp4" g0 0) ∈
      planOverlays (create_celebration_video_plan zeroFn zeroFn zeroMT
        "common" "o.mp4" g0)) ∧
    ((ovParticleOp (planParticle zeroFn zeroFn zeroMT "common" "o.mp4" g0 0)).alpha = none ∧
     (ovParticleOp (planParticle zeroFn zeroFn zeroMT "common" "o.mp4" g0 0)).x.dur = duration ∧
     (ovParticleOp (planParticle zeroFn zeroFn zeroMT "common" "o.mp4" g0 0)).y.dur = duration ∧
     (ovParticleOp (planParticle zeroFn zeroFn zeroMT "common" "o.mp4" g0 0)).x.start = (center_x : ℚ) ∧
     (ovParticleOp (planParticle zeroFn zeroFn zeroMT "common" "o.mp4" g0 0)).y.start = (center_y : ℚ) ∧
     (∀ t : ℚ, posAt (ovParticleOp (planParticle zeroFn zeroFn zeroMT "common" "o.mp4" g0 0)).x t =
       (ovParticleOp (planParticle zeroFn zeroFn zeroMT "common" "o.mp4" g0 0)).x.start +
         ((ovParticleOp (planParticle zeroFn zeroFn zeroMT "common" "o.mp4" g0 0)).x.stop -
           (ovParticleOp (planParticle zeroFn zeroFn zeroMT "common" "o.mp4" g0 0)).x.start) *
           (t / duration)) ∧
     (∀ t : ℚ, posAt (ovParticleOp (planParticle zeroFn zeroFn zeroMT "common" "o.mp4" g0 0)).y t =
       (ovParticleOp (planParticle zeroFn zeroFn zeroMT "common" "o.mp4" g0 0)).y.start +
         ((ovParticleOp (planParticle zeroFn zeroFn zeroMT "common" "o.mp4" g0 0)).y.stop -
           (ovParticleOp (planParticle zeroFn zeroFn zeroMT "common" "o.mp4" g0 0)).y.start) *
           (t / duration))) :=
  ⟨ovParticleOp_zero_mem,
   C6_amended zeroFn zeroFn zeroMT "common" "o.mp4" g0 _ ovParticleOp_zero_mem⟩

end SwapDotz


namespace SwapDotz

theorem chain_spec :
    ∀ (k : ℕ) (shapes : List Shape), shapes.length ≤ k → ∀ (cur fin : Label),
      chainFrom cur shapes fin = true →
      shapes.flatMap Shape.inputs = (cur :: shapes.map Shape.outPad).dropLast ∧
      (cur :: shapes.map Shape.outPad).getLast? = some fin := by
  intro k
  induction k with
  | zero =>
    intro shapes hlen cur fin h
    have hnil : shapes = [] := List.eq_nil_of_length_eq_zero (Nat.le_zero.mp hlen)
    subst hnil
    simp only [chainFrom, beq_iff_eq] at h
    simp [h]
  | succ k ih =>
    intro shapes hlen cur fin h
    rcases shapes with _ | ⟨s1, _ | ⟨s2, rest⟩⟩
    · simp only [chainFrom, beq_iff_eq] at h
      simp [h]
    · cases s1 <;> simp [chainFrom] at h
    · cases s1 with
      | ov _ _ _ => simp [chainFrom] at h
      | src top =>
        cases s2 with
        | src _ => simp [chainFrom] at h
        | ov b t outp =>
          simp only [chainFrom, Bool.and_eq_true, beq_iff_eq] at h
          obtain ⟨⟨hb, ht⟩, hrest⟩ := h
          subst hb; subst ht
          have hlen' : rest.length ≤ k := by
            simp only [List.length_cons] at hlen; omega
          obtain ⟨hin, hlast⟩ := ih rest hlen' outp fin hrest
          constructor
          · simp only [List.flatMap_cons, Shape.inputs, List.map_cons,
              Shape.outPad, List.dropLast_cons₂, List.nil_append,
              List.cons_append]
            rw [hin]
          · simpa only [List.map_cons, Shape.outPad, List.getLast?_cons_cons]
              using hlast

theorem dropLast_count_of_nodup (l : List Label) (fin : Label)
    (hlast : l.getLast? = some fin) (hnd : l.Nodup) :
    ∀ pad ∈ l, (l.dropLast).count pad = if pad = fin then 0 else 1 := by
  intro pad hpad
  have hsplit : l.dropLast ++ [fin] = l :=
    List.dropLast_append_getLast? fin (by simp [hlast, Option.mem_def])
  have hnd' : (l.dropLast ++ [fin]).Nodup := by rw [hsplit]; exact hnd
  rcases List.nodup_append.mp hnd' with ⟨hnd1, _, hdisj⟩
  by_cases hp : pad = fin
  · subst hp
    rw [if_pos rfl, List.count_eq_zero]
    intro hmem
    exact hdisj hmem (by simp)
  · rw [if_neg hp]
    have hmem' : pad ∈ l.dropLast := by
      rw [← hsplit] at hpad
      rcases List.mem_append.mp hpad with hmm | hmm
      · exact hmm
      · simp only [List.mem_singleton] at hmm
        exact absurd hmm hp
    exact List.count_eq_one_of_mem hnd1 hmem'

theorem padsSorted_chain (n : ℕ) :
    ∀ l : List Label, padsSorted n l = true →
      List.Chain' (· < ·) (l.map (padKey n)) := by
  intro l
  induction l with
  | nil => intro _; simp
  | cons a rest ih =>
    cases rest with
    | nil => intro _; simp
    | cons b rest' =>
      intro h
      simp only [padsSorted, Bool.and_eq_true, decide_eq_true_eq] at h
      obtain ⟨hab, hrest⟩ := h
      simp only [List.map_cons, List.chain'_cons]
      exact ⟨hab, by simpa using ih hrest⟩

theorem chain_wellformed (shapes : List Shape) (bg0 fin : Label) (n : ℕ)
    (hchain : chainFrom bg0 shapes fin = true)
    (hkeys : padsSorted n ((Shape.src bg0 :: shapes).map Shape.outPad) = true) :
    ((Shape.src bg0 :: shapes).map Shape.outPad).Nodup ∧
    ∀ pad ∈ (Shape.src bg0 :: shapes).map Shape.outPad,
      refCount pad (Shape.src bg0 :: shapes) = if pad = fin then 0 else 1 := by
  obtain ⟨hin, hlast⟩ := chain_spec shapes.length shapes le_rfl bg0 fin hchain
  have houts : (Shape.src bg0 :: shapes).map Shape.outPad =
      bg0 :: shapes.map Shape.outPad := by
    simp [Shape.outPad]
  have hndkeys : (((Shape.src bg0 :: shapes).map Shape.outPad).map
      (padKey n)).Nodup := by
    have hpw := List.chain'_iff_pairwise.mp
      (padsSorted_chain n _ hkeys)
    exact hpw.imp Nat.ne_of_lt
  have hnd : ((Shape.src bg0 :: shapes).map Shape.outPad).Nodup :=
    hndkeys.of_map _
  refine ⟨hnd, ?_⟩
  intro pad hpad
  have hrc : refCount pad (Shape.src bg0 :: shapes) =
      ((bg0 :: shapes.map Shape.outPad).dropLast).count pad := by
    simp only [refCount, List.flatMap_cons, Shape.inputs, List.nil_append]
    rw [hin]
  rw [hrc]
  rw [houts] at hpad hnd
  exact dropLast_count_of_nodup _ fin hlast hnd pad hpad

end SwapDotz

namespace SwapDotz

set_option maxRecDepth 100000 in
/-- Claim C7 (confirmed): for each rarity tier, the compiled graph's wiring
is exactly: background first, then particle layers `0..particleCount-1` in
generation order, then ray layers `0..rayCount-1`, each composited onto the
output of the previous entry (`expectedShapes`, checked by `chainFrom`); pad
names are never redeclared (`Nodup`), every declared intermediate pad is
consumed exactly once as input of one later entry while the final pad is
consumed by none (`refCount`), and that final pad (`tmp 29` / `ray_tmp 31` /
`ray_tmp 47`) is the one mapped to the encoder (`cmd.mapLabel`). -/
theorem C7_linear_chain (cf sf : ℚ → ℚ) (mt : ℕ → ℕ → ℚ) (out : String)
    (g : PRNG) :
    ((create_celebration_video_plan cf sf mt "common" out g).filters.map shapeOf =
        expectedShapes 30 0 ∧
      (create_celebration_video_plan cf sf mt "common" out g).final_layer = .tmp 29 ∧
      (create_celebration_video_plan cf sf mt "common" out g).cmd.mapLabel =
        (create_celebration_video_plan cf sf mt "common" out g).final_layer ∧
      chainFrom .bg ((expectedShapes 30 0).tail) (.tmp 29) = true ∧
      ((expectedShapes 30 0).map Shape.outPad).Nodup ∧
      (∀ pad ∈ (expectedShapes 30 0).map Shape.outPad,
        refCount pad (expectedShapes 30 0) = if pad = Label.tmp 29 then 0 else 1)) ∧
    ((create_celebration_video_plan cf sf mt "uncommon" out g).filters.map shapeOf =
        expectedShapes 60 32 ∧
      (create_celebration_video_plan cf sf mt "uncommon" out g).final_layer = .ray_tmp 31 ∧
      (create_celebration_video_plan cf sf mt "uncommon" out g).cmd.mapLabel =
        (create_celebration_video_plan cf sf mt "uncommon" out g).final_layer ∧
      chainFrom .bg ((expectedShapes 60 32).tail) (.ray_tmp 31) = true ∧
      ((expectedShapes 60 32).map Shape.outPad).Nodup ∧
      (∀ pad ∈ (expectedShapes 60 32).map Shape.outPad,
        refCount pad (expectedShapes 60 32) = if pad = Label.ray_tmp 31 then 0 else 1)) ∧
    ((create_celebration_video_plan cf sf mt "rare" out g).filters.map shapeOf =
        expectedShapes 100 48 ∧
      (create_celebration_video_plan cf sf mt "rare" out g).final_layer = .ray_tmp 47 ∧
      (create_celebration_video_plan cf sf mt "rare" out g).cmd.mapLabel =
        (create_celebration_video_plan cf sf mt "rare" out g).final_layer ∧
      chainFrom .bg ((expectedShapes 100 48).tail) (.ray_tmp 47) = true ∧
      ((expectedShapes 100 48).map Shape.outPad).Nodup ∧
      (∀ pad ∈ (expectedShapes 100 48).map Shape.outPad,
        refCount pad (expectedShapes 100 48) = if pad = Label.ray_tmp 47 then 0 else 1)) := by
  have h30 := chain_wellformed ((expectedShapes 30 0).tail) .bg (.tmp 29) 30
    (by decide) (by decide)
  have h60 := chain_wellformed ((expectedShapes 60 32).tail) .bg (.ray_tmp 31) 60
    (by decide) (by decide)
  have h100 := chain_wellformed ((expectedShapes 100 48).tail) .bg (.ray_tmp 47) 100
    (by decide) (by decide)
  refine ⟨⟨?_, rfl, rfl, by decide, h30.1, h30.2⟩,
    ⟨?_, rfl, rfl, by decide, h60.1, h60.2⟩,
    ⟨?_, rfl, rfl, by decide, h100.1, h100.2⟩⟩
  · have h : (create_celebration_video_plan cf sf mt "common" out g).filters =
        bgNode :: ((particleLoop cf sf ["#32CD32", "#90EE90"] 0 30
          ⟨mt 42, 0⟩).2.1 ++ []) := rfl
    rw [h]
    simp only [List.map_cons, List.map_append, particleLoop_shapes, List.map_nil]
    decide
  · have h : (create_celebration_video_plan cf sf mt "uncommon" out g).filters =
        bgNode :: ((particleLoop cf sf ["#4A90E2", "#00CED1"] 0 60
          ⟨mt 42, 0⟩).2.1 ++ (rayLoop cf sf 32 (.tmp 59) 0 32).1) := rfl
    rw [h]
    simp only [List.map_cons, List.map_append, particleLoop_shapes, rayLoop_shapes]
    decide
  · have h : (create_celebration_video_plan cf sf mt "rare" out g).filters =
        bgNode :: ((particleLoop cf sf ["#FF6B35", "#FFD700"] 0 100
          ⟨mt 42, 0⟩).2.1 ++ (rayLoop cf sf 48 (.tmp 99) 0 48).1) := rfl
    rw [h]
    simp only [List.map_cons, List.map_append, particleLoop_shapes, rayLoop_shapes]
    decide

end SwapDotz
